import Mathlib

/-!
# Verification of `homeassistant/components/media_player/itunes.py`

A shallow embedding of the iTunes-API media-player adapter: the `Itunes`
transport client and the `ItunesDevice` adapter, faithfully translated from
the Python source. HTTP interaction is modelled by an environment function
from the issued call to its outcome; Python exceptions escaping a function
are modelled with `Except`; JSON response mappings become a structure of
optional fields; Python floats are modelled as exact rationals.
-/

/-- JSON-like response mapping returned by the remote server (or synthesized
as a failure sentinel).  All keys are optional, mirroring a Python dict with
`.get` access. -/
structure StateHash where
  player_state : Option String := none
  volume : Option Int := none
  muted : Option Bool := none
  name : Option String := none
  album : Option String := none
  artist : Option String := none
  playlist : Option String := none
  id : Option String := none
deriving DecidableEq, Repr

/-- The HTTP verb actually invoked on the `requests` library.  The source
dispatches method strings `GET`/`POST`/`PUT`/`DELETE` onto `requests.get`,
`requests.put` (for both `POST` and `PUT`), and `requests.delete`. -/
inductive HttpVerb
  | get
  | put
  | delete
deriving DecidableEq, Repr

/-- The `params` dict passed as second argument to `requests.put`: either
`{'level': level}` (for `/volume`) or `{'muted': muted}` (for `/mute`). -/
structure Params where
  level : Option Int := none
  muted : Option Bool := none
deriving DecidableEq, Repr

/-- One HTTP call as it reaches the `requests` library: the verb, the full
URL, and the params dict (sent only on PUT; `requests.get`/`requests.delete`
are called with the URL alone). -/
structure HttpCall where
  verb : HttpVerb
  url : String
  params : Option Params
deriving DecidableEq, Repr

/-- Body of a returned HTTP response, as seen by `response.json()`: either a
valid JSON mapping or an invalid body on which `response.json()` raises a
`ValueError` (the JSON decode error of the `requests` versions contemporary
with this source is a `ValueError`, not a `requests.exceptions.RequestException`). -/
inductive JsonBody
  | invalid
  | valid (h : StateHash)
deriving DecidableEq, Repr

/-- Exception raised by the `requests` library during the HTTP call itself.
`httpError` is `requests.exceptions.HTTPError` (an HTTP-level error status);
`otherRequestException` is any other `requests.exceptions.RequestException`
(unreachable host, timeout, DNS failure, connection refused, ...). -/
inductive RequestsExc
  | httpError
  | otherRequestException
deriving DecidableEq, Repr

/-- Outcome of one HTTP call: the library either raises an exception or
returns a response with some body. -/
inductive HttpResult
  | raises (e : RequestsExc)
  | response (body : JsonBody)
deriving DecidableEq, Repr

/-- The network environment: what outcome each issued HTTP call produces. -/
def HttpEnv : Type := HttpCall → HttpResult

/-- Python exceptions that can escape `_request` uncaught: `valueError` is
the JSON decode error raised by `response.json()` (caught by neither
`except HTTPError` nor `except RequestException`); `nameError` is the
`UnboundLocalError` from reading the unassigned `response` variable when the
method string matches no dispatch branch. -/
inductive PyExc
  | valueError
  | nameError
deriving DecidableEq, Repr

/-- `response.json()`: returns the decoded mapping or raises `ValueError`. -/
def jsonDecode : JsonBody → Except PyExc StateHash
  | .invalid => .error .valueError
  | .valid h => .ok h

/-- The method-string dispatch of `Itunes._request`: which `requests`
function each branch invokes (`POST` also maps onto `requests.put`); any
other string leaves `response` unassigned. -/
def dispatch : String → Option HttpVerb
  | "GET" => some .get
  | "POST" => some .put
  | "PUT" => some .put
  | "DELETE" => some .delete
  | _ => none

/-- The `Itunes` transport-client object: configured host and port. -/
structure Itunes where
  host : String
  port : Int
deriving DecidableEq, Repr

/-- `Itunes._base_url`: `self.host + ":" + str(self.port)`. -/
def Itunes._base_url (c : Itunes) : String :=
  c.host ++ ":" ++ toString c.port

/-- `Itunes._request`: issues one HTTP call and returns the parsed response;
an `HTTPError` becomes the `{'player_state': 'error'}` sentinel, any other
`RequestException` the `{'player_state': 'offline'}` sentinel.  The returned
pair records the call actually issued to the library (none when the method
string matches no branch, in which case no call happens and reading the
unassigned `response` raises).  A `ValueError` from `response.json()` is
caught by neither except-clause and escapes as `Except.error`. -/
def Itunes._request (c : Itunes) (env : HttpEnv) (method path : String)
    (params : Option Params) : Option HttpCall × Except PyExc StateHash :=
  let url := c._base_url ++ path
  match dispatch method with
  | none => (none, .error .nameError)
  | some verb =>
    let sent : Option Params := match verb with
      | .put => params
      | _ => none
    let call : HttpCall := ⟨verb, url, sent⟩
    (some call,
      match env call with
      | .raises .httpError => .ok { player_state := some "error" }
      | .raises .otherRequestException => .ok { player_state := some "offline" }
      | .response body => jsonDecode body)

/-- `Itunes._command`: PUT to `/<named_command>` with no params. -/
def Itunes._command (c : Itunes) (env : HttpEnv) (named_command : String) :
    Option HttpCall × Except PyExc StateHash :=
  c._request env "PUT" ("/" ++ named_command) none

/-- `Itunes.now_playing`: GET `/now_playing`. -/
def Itunes.now_playing (c : Itunes) (env : HttpEnv) :
    Option HttpCall × Except PyExc StateHash :=
  c._request env "GET" "/now_playing" none

/-- `Itunes.set_volume`: PUT `/volume` with `{'level': level}`. -/
def Itunes.set_volume (c : Itunes) (env : HttpEnv) (level : Int) :
    Option HttpCall × Except PyExc StateHash :=
  c._request env "PUT" "/volume" (some { level := some level })

/-- `Itunes.set_muted`: PUT `/mute` with `{'muted': muted}`. -/
def Itunes.set_muted (c : Itunes) (env : HttpEnv) (muted : Bool) :
    Option HttpCall × Except PyExc StateHash :=
  c._request env "PUT" "/mute" (some { muted := some muted })

/-- `Itunes.play`. -/
def Itunes.play (c : Itunes) (env : HttpEnv) :
    Option HttpCall × Except PyExc StateHash :=
  c._command env "play"

/-- `Itunes.pause`. -/
def Itunes.pause (c : Itunes) (env : HttpEnv) :
    Option HttpCall × Except PyExc StateHash :=
  c._command env "pause"

/-- `Itunes.next`. -/
def Itunes.next (c : Itunes) (env : HttpEnv) :
    Option HttpCall × Except PyExc StateHash :=
  c._command env "next"

/-- `Itunes.previous`. -/
def Itunes.previous (c : Itunes) (env : HttpEnv) :
    Option HttpCall × Except PyExc StateHash :=
  c._command env "previous"

/-- `Itunes.artwork_url`: pure string construction, no HTTP call (and hence
no `env` argument in the embedding). -/
def Itunes.artwork_url (c : Itunes) : String :=
  c._base_url ++ "/artwork"

/-- Normalized state constant from `homeassistant.const` (external to this
module; value as named by the host contract). -/
def STATE_IDLE : String := "idle"

/-- Normalized state constant from `homeassistant.const`. -/
def STATE_PLAYING : String := "playing"

/-- Normalized state constant from `homeassistant.const`. -/
def STATE_PAUSED : String := "paused"

/-- Content-type constant from the host's media_player component. -/
def MEDIA_TYPE_MUSIC : String := "music"

/-- Modelled from the spec: the capability flag constants imported from the
host's `media_player` component are not under `src/`; per the host contract
each is a distinct power-of-two bit of the capability bitmask. -/
def SUPPORT_PAUSE : Nat := 1

/-- Modelled from the spec: host capability flag, distinct bit. -/
def SUPPORT_SEEK : Nat := 2

/-- Modelled from the spec: host capability flag, distinct bit. -/
def SUPPORT_VOLUME_SET : Nat := 4

/-- Modelled from the spec: host capability flag, distinct bit. -/
def SUPPORT_VOLUME_MUTE : Nat := 8

/-- Modelled from the spec: host capability flag, distinct bit. -/
def SUPPORT_PREVIOUS_TRACK : Nat := 16

/-- Modelled from the spec: host capability flag, distinct bit. -/
def SUPPORT_NEXT_TRACK : Nat := 32

/-- `SUPPORT_ITUNES`: the static capability bitmask declared at module level
in the source. -/
def SUPPORT_ITUNES : Nat :=
  SUPPORT_PAUSE ||| SUPPORT_VOLUME_SET ||| SUPPORT_VOLUME_MUTE |||
    SUPPORT_PREVIOUS_TRACK ||| SUPPORT_NEXT_TRACK ||| SUPPORT_SEEK

/-- The placeholder image URL constant returned by `media_image_url` when no
artwork applies (the two adjacent string literals of the source,
concatenated). -/
def PLACEHOLDER_URL : String :=
  "https://cloud.githubusercontent.com/assets/260/9829355" ++
    "/33fab972-58cf-11e5-8ea2-2ca74bdaae40.png"

/-- The mutable instance state of an `ItunesDevice`.  Fields that Python
initializes to `None` and later overwrites are `Option`-typed; in particular
`current_volume` is `Option Int` because `__init__` sets it to `None` before
the eager update assigns it an integer. -/
structure ItunesDevice where
  _name : String
  _host : String
  _port : Int
  client : Itunes
  current_volume : Option Int
  muted : Option Bool
  current_title : Option String
  current_album : Option String
  current_artist : Option String
  current_playlist : Option String
  content_id : Option String
  player_state : Option String
deriving DecidableEq, Repr

/-- `ItunesDevice.update_state`: overwrites every cached field with the
corresponding key of the passed dictionary, using `.get` defaults (`None`
everywhere except `0` for `volume`). -/
def ItunesDevice.update_state (d : ItunesDevice) (state_hash : StateHash) :
    ItunesDevice :=
  { d with
    player_state := state_hash.player_state,
    current_volume := some (state_hash.volume.getD 0),
    muted := state_hash.muted,
    current_title := state_hash.name,
    current_album := state_hash.album,
    current_artist := state_hash.artist,
    current_playlist := state_hash.playlist,
    content_id := state_hash.id }

/-- The `name` property. -/
def ItunesDevice.name (d : ItunesDevice) : String :=
  d._name

/-- The `state` property: the five-way priority cascade from raw
`player_state` to the normalized state string. -/
def ItunesDevice.state (d : ItunesDevice) : String :=
  if d.player_state = some "offline" ∨ d.player_state = none then "offline"
  else if d.player_state = some "error" then "error"
  else if d.player_state = some "stopped" then STATE_IDLE
  else if d.player_state = some "paused" then STATE_PAUSED
  else STATE_PLAYING

/-- `ItunesDevice.update`: fetch `/now_playing` and overwrite the cached
state with the response.  If the fetch raises (uncaught `ValueError` from an
invalid JSON body), the exception propagates and no state update happens. -/
def ItunesDevice.update (d : ItunesDevice) (env : HttpEnv) :
    Option HttpCall × Except PyExc ItunesDevice :=
  let r := d.client.now_playing env
  (r.1, r.2.map d.update_state)

/-- The `is_volume_muted` property. -/
def ItunesDevice.is_volume_muted (d : ItunesDevice) : Option Bool :=
  d.muted

/-- The `volume_level` property: `self.current_volume/100.0`.  Division of
`None` would raise in Python, so the embedding is `Option`-valued: `none`
exactly when `current_volume` is `None`. -/
def ItunesDevice.volume_level (d : ItunesDevice) : Option ℚ :=
  d.current_volume.map (fun v => (v : ℚ) / 100)

/-- The `media_content_id` property. -/
def ItunesDevice.media_content_id (d : ItunesDevice) : Option String :=
  d.content_id

/-- The `media_content_type` property. -/
def ItunesDevice.media_content_type (_ : ItunesDevice) : String :=
  MEDIA_TYPE_MUSIC

/-- The `media_image_url` property: the source compares the RAW cached
`player_state` field (not the normalized `state` property) against
`(STATE_PLAYING, STATE_IDLE, STATE_PAUSED)` and additionally requires a
non-`None` title; otherwise it returns the placeholder constant. -/
def ItunesDevice.media_image_url (d : ItunesDevice) : String :=
  if (d.player_state = some STATE_PLAYING ∨ d.player_state = some STATE_IDLE ∨
        d.player_state = some STATE_PAUSED) ∧ d.current_title ≠ none
  then d.client.artwork_url
  else PLACEHOLDER_URL

/-- The `media_title` property. -/
def ItunesDevice.media_title (d : ItunesDevice) : Option String :=
  d.current_title

/-- The `media_artist` property. -/
def ItunesDevice.media_artist (d : ItunesDevice) : Option String :=
  d.current_artist

/-- The `media_album_name` property. -/
def ItunesDevice.media_album_name (d : ItunesDevice) : Option String :=
  d.current_album

/-- The `supported_media_commands` property: always the module-level
constant, whatever the cached state. -/
def ItunesDevice.supported_media_commands (_ : ItunesDevice) : Nat :=
  SUPPORT_ITUNES

/-- Python `int()` applied to a number: truncation toward zero. -/
def pyInt (q : ℚ) : Int :=
  if 0 ≤ q then ⌊q⌋ else -⌊-q⌋

/-- `ItunesDevice.set_volume_level`: `self.client.set_volume(int(volume * 100))`
followed by `update_state` on the response. -/
def ItunesDevice.set_volume_level (d : ItunesDevice) (env : HttpEnv)
    (volume : ℚ) : Option HttpCall × Except PyExc ItunesDevice :=
  let r := d.client.set_volume env (pyInt (volume * 100))
  (r.1, r.2.map d.update_state)

/-- `ItunesDevice.mute_volume`. -/
def ItunesDevice.mute_volume (d : ItunesDevice) (env : HttpEnv) (mute : Bool) :
    Option HttpCall × Except PyExc ItunesDevice :=
  let r := d.client.set_muted env mute
  (r.1, r.2.map d.update_state)

/-- `ItunesDevice.media_play`. -/
def ItunesDevice.media_play (d : ItunesDevice) (env : HttpEnv) :
    Option HttpCall × Except PyExc ItunesDevice :=
  let r := d.client.play env
  (r.1, r.2.map d.update_state)

/-- `ItunesDevice.media_pause`. -/
def ItunesDevice.media_pause (d : ItunesDevice) (env : HttpEnv) :
    Option HttpCall × Except PyExc ItunesDevice :=
  let r := d.client.pause env
  (r.1, r.2.map d.update_state)

/-- `ItunesDevice.media_next_track`. -/
def ItunesDevice.media_next_track (d : ItunesDevice) (env : HttpEnv) :
    Option HttpCall × Except PyExc ItunesDevice :=
  let r := d.client.next env
  (r.1, r.2.map d.update_state)

/-- `ItunesDevice.media_previous_track`. -/
def ItunesDevice.media_previous_track (d : ItunesDevice) (env : HttpEnv) :
    Option HttpCall × Except PyExc ItunesDevice :=
  let r := d.client.previous env
  (r.1, r.2.map d.update_state)

/-- `ItunesDevice.__init__`: stores the configuration, builds the client,
sets every cached field to `None`, and performs the eager synchronous
`self.update()`.  If that update raises, construction fails with the same
exception. -/
def ItunesDevice.init (nm host : String) (port : Int) (env : HttpEnv) :
    Option HttpCall × Except PyExc ItunesDevice :=
  let d0 : ItunesDevice :=
    { _name := nm, _host := host, _port := port,
      client := { host := host, port := port },
      current_volume := none, muted := none, current_title := none,
      current_album := none, current_artist := none, current_playlist := none,
      content_id := none, player_state := none }
  d0.update env

/-- Defined from the spec's words, for comparison with the source's volume
conversion: Python `round()`, nearest integer with ties to even. -/
def pyRound (q : ℚ) : Int :=
  if q - ⌊q⌋ < 1/2 then ⌊q⌋
  else if 1/2 < q - ⌊q⌋ then ⌊q⌋ + 1
  else if 2 ∣ ⌊q⌋ then ⌊q⌋ else ⌊q⌋ + 1

/-- Whether an operation completed without a Python exception escaping. -/
def noRaise {α : Type} (r : Except PyExc α) : Bool :=
  match r with
  | .ok _ => true
  | .error _ => false

/-- A concrete device in the `playing` state, for witnesses. -/
def dev0 : ItunesDevice :=
  { _name := "iTunes", _host := "http://192.168.1.16", _port := 8181,
    client := { host := "http://192.168.1.16", port := 8181 },
    current_volume := some 50, muted := some false,
    current_title := some "Song A", current_album := none,
    current_artist := none, current_playlist := none, content_id := none,
    player_state := some "playing" }

/-- A concrete device whose raw `player_state` is `'stopped'` while a title
is cached. -/
def devStopped : ItunesDevice :=
  { dev0 with player_state := some "stopped" }

/-- A concrete transport client, for witnesses. -/
def client0 : Itunes := { host := "http://192.168.1.16", port := 8181 }

/-- Environment in which every HTTP call raises `HTTPError`. -/
def envHttpErr : HttpEnv := fun _ => .raises .httpError

/-- Environment in which every HTTP call fails at the transport level
(connection refused, timeout, ...). -/
def envRefused : HttpEnv := fun _ => .raises .otherRequestException

/-- Environment in which every HTTP call succeeds with an empty JSON
object. -/
def envOkEmpty : HttpEnv := fun _ => .response (.valid {})

/-- Environment in which every HTTP call returns a body that is not valid
JSON. -/
def envInvalidJson : HttpEnv := fun _ => .response .invalid

theorem pyInt_ratio_999 : pyInt ((999:ℚ)/1000 * 100) = 99 := by
  have h : ((999:ℚ)/1000 * 100) = 999/10 := by norm_num
  have hf : ⌊(999:ℚ)/10⌋ = 99 := by
    rw [Int.floor_eq_iff]
    norm_num
  rw [h]
  unfold pyInt
  rw [if_pos (by norm_num), hf]

theorem pyRound_ratio_999 : pyRound ((999:ℚ)/1000 * 100) = 100 := by
  have h : ((999:ℚ)/1000 * 100) = 999/10 := by norm_num
  have hf : ⌊(999:ℚ)/10⌋ = 99 := by
    rw [Int.floor_eq_iff]
    norm_num
  rw [h]
  unfold pyRound
  rw [hf]
  rw [if_neg (by norm_num), if_pos (by norm_num)]
  norm_num

theorem pyInt_ratio_73 : pyInt ((73:ℚ)/100 * 100) = 73 := by
  have h : ((73:ℚ)/100 * 100) = ((73:Int) : ℚ) := by norm_num
  rw [h]
  unfold pyInt
  rw [if_pos (by positivity), Int.floor_intCast]

/-- C1: the `state` property follows the five-way priority cascade on the
cached `player_state`: absent or `'offline'` gives `'offline'`; else
`'error'` gives `'error'`; else `'stopped'` gives `'idle'`; else `'paused'`
gives `'paused'`; any other value (including `'playing'` and unrecognized
strings) gives `'playing'`. -/
theorem state_priority_cascade (d : ItunesDevice) :
    ((d.player_state = none ∨ d.player_state = some "offline") →
      d.state = "offline") ∧
    (d.player_state = some "error" → d.state = "error") ∧
    (d.player_state = some "stopped" → d.state = STATE_IDLE) ∧
    (d.player_state = some "paused" → d.state = STATE_PAUSED) ∧
    (∀ s : String, d.player_state = some s → s ≠ "offline" → s ≠ "error" →
      s ≠ "stopped" → s ≠ "paused" → d.state = STATE_PLAYING) := by
  refine ⟨?_, ?_, ?_, ?_, ?_⟩
  · intro h
    rcases h with h | h <;>
      simp [ItunesDevice.state, h]
  · intro h
    simp [ItunesDevice.state, h]
  · intro h
    simp [ItunesDevice.state, h]
  · intro h
    simp [ItunesDevice.state, h, STATE_IDLE]
  · intro s hs h1 h2 h3 h4
    simp [ItunesDevice.state, hs, h1, h2, h3, h4, STATE_IDLE, STATE_PAUSED]

/-- Witness for C1: the cascade evaluated on concrete devices, one per
branch. -/
theorem state_priority_cascade_witness :
    ({ dev0 with player_state := none } : ItunesDevice).state = "offline" ∧
    ({ dev0 with player_state := some "error" } : ItunesDevice).state
      = "error" ∧
    devStopped.state = STATE_IDLE ∧
    ({ dev0 with player_state := some "paused" } : ItunesDevice).state
      = STATE_PAUSED ∧
    ({ dev0 with player_state := some "mystery" } : ItunesDevice).state
      = STATE_PLAYING :=
  ⟨(state_priority_cascade _).1 (Or.inl rfl),
   (state_priority_cascade _).2.1 rfl,
   (state_priority_cascade _).2.2.1 rfl,
   (state_priority_cascade _).2.2.2.1 rfl,
   (state_priority_cascade _).2.2.2.2 "mystery" rfl (by decide) (by decide)
     (by decide) (by decide)⟩

/-- C8: `supported_media_commands` is the constant capability bitmask of
exactly pause, volume-set, mute, previous-track, next-track and seek, the
same for every cached state. -/
theorem supported_commands_constant_bitmask (d : ItunesDevice) :
    d.supported_media_commands =
      SUPPORT_PAUSE ||| SUPPORT_VOLUME_SET ||| SUPPORT_VOLUME_MUTE |||
        SUPPORT_PREVIOUS_TRACK ||| SUPPORT_NEXT_TRACK ||| SUPPORT_SEEK ∧
    (∀ d' : ItunesDevice,
      d'.supported_media_commands = d.supported_media_commands) :=
  ⟨rfl, fun _ => rfl⟩

/-- C9: `artwork_url` is pure string construction: the base URL
(host + `':'` + port) concatenated with `'/artwork'`; the embedding takes
no environment, reflecting that no network call happens. -/
theorem artwork_url_pure_construction (c : Itunes) :
    c.artwork_url = c._base_url ++ "/artwork" ∧
    c.artwork_url = c.host ++ ":" ++ toString c.port ++ "/artwork" :=
  ⟨rfl, rfl⟩

/-- C7: `volume_level` equals the cached `volume` divided by 100, and a
response without a `volume` key caches the default 0, making `volume_level`
equal 0. -/
theorem volume_level_division (d : ItunesDevice) (v : Int)
    (hv : d.current_volume = some v) (h0 : 0 ≤ v) (h100 : v ≤ 100)
    (sh : StateHash) (hnone : sh.volume = none) :
    d.volume_level = some ((v : ℚ) / 100) ∧
    (d.update_state sh).current_volume = some 0 ∧
    (d.update_state sh).volume_level = some 0 := by
  refine ⟨?_, ?_, ?_⟩
  · simp [ItunesDevice.volume_level, hv]
  · simp [ItunesDevice.update_state, hnone]
  · simp [ItunesDevice.volume_level, ItunesDevice.update_state, hnone]

/-- Witness for C7: evaluated at cached volume 50 and an empty response. -/
theorem volume_level_division_witness :
    dev0.current_volume = some 50 ∧ (0:Int) ≤ 50 ∧ (50:Int) ≤ 100 ∧
    StateHash.volume {} = none ∧
    dev0.volume_level = some ((50:ℚ) / 100) ∧
    (dev0.update_state {}).volume_level = some 0 := by
  have h := volume_level_division dev0 50 rfl (by norm_num) (by norm_num)
    {} rfl
  exact ⟨rfl, by norm_num, by norm_num, rfl, h.1, h.2.2⟩

/-- Counterexample for C2 as stated: with raw `player_state = 'stopped'`
and a cached title, the normalized state is `'idle'` (in
{playing, idle, paused}) and the title is non-null, yet `media_image_url`
returns the placeholder constant, not the artwork URL — because the source
compares the raw cached `player_state`, not the `state` property, against
`(STATE_PLAYING, STATE_IDLE, STATE_PAUSED)`. -/
theorem media_image_url_normalized_state_counterexample :
    devStopped.state = STATE_IDLE ∧
    devStopped.current_title = some "Song A" ∧
    devStopped.media_image_url = PLACEHOLDER_URL ∧
    devStopped.media_image_url ≠ devStopped.client.artwork_url := by
  refine ⟨rfl, rfl, ?_, ?_⟩
  · decide
  · decide

/-- C2 amended: `media_image_url` returns the Transport Client's artwork
URL when the RAW cached `player_state` is one of
{'playing', 'idle', 'paused'} and the cached title is non-null; in every
other case it returns the fixed placeholder image URL constant. -/
theorem media_image_url_raw_state_characterization (d : ItunesDevice) :
    (((d.player_state = some "playing" ∨ d.player_state = some "idle" ∨
        d.player_state = some "paused") ∧ d.current_title ≠ none) →
      d.media_image_url = d.client.artwork_url) ∧
    (¬ ((d.player_state = some "playing" ∨ d.player_state = some "idle" ∨
        d.player_state = some "paused") ∧ d.current_title ≠ none) →
      d.media_image_url = PLACEHOLDER_URL) := by
  constructor
  · intro h
    simp only [ItunesDevice.media_image_url, STATE_PLAYING, STATE_IDLE,
      STATE_PAUSED]
    rw [if_pos h]
  · intro h
    simp only [ItunesDevice.media_image_url, STATE_PLAYING, STATE_IDLE,
      STATE_PAUSED]
    rw [if_neg h]

/-- Witness for C2 amended: a playing device with a title gets the artwork
URL; the stopped device gets the placeholder. -/
theorem media_image_url_raw_state_characterization_witness :
    dev0.player_state = some "playing" ∧ dev0.current_title ≠ none ∧
    dev0.media_image_url = dev0.client.artwork_url ∧
    devStopped.media_image_url = PLACEHOLDER_URL :=
  ⟨rfl, by decide,
   (media_image_url_raw_state_characterization dev0).1
     ⟨Or.inl rfl, by decide⟩,
   (media_image_url_raw_state_characterization devStopped).2
     (by decide)⟩

/-- C3: for the HTTP call that `_request` issues, an `HTTPError` outcome
yields the `{player_state: 'error'}` sentinel, any other
`RequestException` (unreachable host, timeout, DNS failure, connection
refused) yields `{player_state: 'offline'}`, and a successful response
yields the decoded JSON body verbatim. -/
theorem request_outcome_sentinels (c : Itunes) (env : HttpEnv)
    (method path : String) (params : Option Params) (call : HttpCall)
    (hcall : (c._request env method path params).1 = some call) :
    (env call = .raises .httpError →
      (c._request env method path params).2 =
        .ok { player_state := some "error" }) ∧
    (env call = .raises .otherRequestException →
      (c._request env method path params).2 =
        .ok { player_state := some "offline" }) ∧
    (∀ h : StateHash, env call = .response (.valid h) →
      (c._request env method path params).2 = .ok h) := by
  unfold Itunes._request at hcall ⊢
  rcases hd : dispatch method with _ | verb
  · rw [hd] at hcall
    simp at hcall
  · rw [hd] at hcall
    simp only [Option.some.injEq] at hcall
    subst hcall
    refine ⟨?_, ?_, ?_⟩
    · intro he
      simp [he]
    · intro he
      simp [he]
    · intro h he
      simp [he, jsonDecode]

/-- Witness for C3: the three outcomes evaluated on a concrete client and
the `GET /now_playing` call. -/
theorem request_outcome_sentinels_witness :
    (client0._request envHttpErr "GET" "/now_playing" none).1 =
      some ⟨HttpVerb.get, client0._base_url ++ "/now_playing", none⟩ ∧
    (client0._request envHttpErr "GET" "/now_playing" none).2 =
      .ok { player_state := some "error" } ∧
    (client0._request envRefused "GET" "/now_playing" none).2 =
      .ok { player_state := some "offline" } ∧
    (client0._request envOkEmpty "GET" "/now_playing" none).2 = .ok {} :=
  ⟨rfl,
   (request_outcome_sentinels client0 envHttpErr "GET" "/now_playing" none
     _ rfl).1 rfl,
   (request_outcome_sentinels client0 envRefused "GET" "/now_playing" none
     _ rfl).2.1 rfl,
   (request_outcome_sentinels client0 envOkEmpty "GET" "/now_playing" none
     _ rfl).2.2 {} rfl⟩

theorem request_noRaise (c : Itunes) (env : HttpEnv) (method path : String)
    (params : Option Params) (verb : HttpVerb)
    (hm : dispatch method = some verb)
    (hgood : ∀ call, env call ≠ .response .invalid) :
    noRaise (c._request env method path params).2 = true := by
  unfold Itunes._request
  rw [hm]
  cases verb
  case get =>
    dsimp only
    rcases he : env ⟨HttpVerb.get, c._base_url ++ path, none⟩ with e | body
    · cases e <;> simp [he, noRaise]
    · rcases body with _ | h
      · exact absurd he (hgood _)
      · simp [he, jsonDecode, noRaise]
  case put =>
    dsimp only
    rcases he : env ⟨HttpVerb.put, c._base_url ++ path, params⟩ with e | body
    · cases e <;> simp [he, noRaise]
    · rcases body with _ | h
      · exact absurd he (hgood _)
      · simp [he, jsonDecode, noRaise]
  case delete =>
    dsimp only
    rcases he : env ⟨HttpVerb.delete, c._base_url ++ path, none⟩ with e | body
    · cases e <;> simp [he, noRaise]
    · rcases body with _ | h
      · exact absurd he (hgood _)
      · simp [he, jsonDecode, noRaise]

theorem noRaise_map (d : ItunesDevice) (r : Except PyExc StateHash)
    (h : noRaise r = true) :
    noRaise (Except.map d.update_state r) = true := by
  cases r
  · simp [noRaise] at h
  · rfl

/-- Counterexample for C4 as stated: when the server answers successfully
with a body that is not valid JSON, `response.json()` raises a
`ValueError`, which neither except-clause catches, and the exception
escapes past the Device Adapter's `update`. -/
theorem no_exception_escape_counterexample :
    (dev0.update envInvalidJson).2 = .error .valueError ∧
    noRaise (dev0.update envInvalidJson).2 = false :=
  ⟨rfl, rfl⟩

/-- C4 amended: for every Transport Client and Device Adapter operation, if
every HTTP call either raises a requests exception or returns a valid-JSON
body, then no exception escapes — all failure is expressed as data in the
returned `player_state`; a successful response with an invalid JSON body is
the one outcome that raises. -/
theorem no_exception_escape_except_invalid_json (d : ItunesDevice)
    (c : Itunes) (env : HttpEnv)
    (hgood : ∀ call, env call ≠ .response .invalid)
    (nm host : String) (port : Int) (level : Int) (b : Bool) (v : ℚ) :
    noRaise (c.now_playing env).2 = true ∧
    noRaise (c.set_volume env level).2 = true ∧
    noRaise (c.set_muted env b).2 = true ∧
    noRaise (c.play env).2 = true ∧
    noRaise (c.pause env).2 = true ∧
    noRaise (c.next env).2 = true ∧
    noRaise (c.previous env).2 = true ∧
    noRaise (ItunesDevice.init nm host port env).2 = true ∧
    noRaise (d.update env).2 = true ∧
    noRaise (d.set_volume_level env v).2 = true ∧
    noRaise (d.mute_volume env b).2 = true ∧
    noRaise (d.media_play env).2 = true ∧
    noRaise (d.media_pause env).2 = true ∧
    noRaise (d.media_next_track env).2 = true ∧
    noRaise (d.media_previous_track env).2 = true := by
  refine ⟨?_, ?_, ?_, ?_, ?_, ?_, ?_, ?_, ?_, ?_, ?_, ?_, ?_, ?_, ?_⟩
  · exact request_noRaise c env "GET" "/now_playing" none .get rfl hgood
  · exact request_noRaise c env "PUT" "/volume" _ .put rfl hgood
  · exact request_noRaise c env "PUT" "/mute" _ .put rfl hgood
  · exact request_noRaise c env "PUT" "/play" none .put rfl hgood
  · exact request_noRaise c env "PUT" "/pause" none .put rfl hgood
  · exact request_noRaise c env "PUT" "/next" none .put rfl hgood
  · exact request_noRaise c env "PUT" "/previous" none .put rfl hgood
  · exact noRaise_map _ _
      (request_noRaise _ env "GET" "/now_playing" none .get rfl hgood)
  · exact noRaise_map _ _
      (request_noRaise _ env "GET" "/now_playing" none .get rfl hgood)
  · exact noRaise_map _ _
      (request_noRaise _ env "PUT" "/volume" _ .put rfl hgood)
  · exact noRaise_map _ _
      (request_noRaise _ env "PUT" "/mute" _ .put rfl hgood)
  · exact noRaise_map _ _
      (request_noRaise _ env "PUT" "/play" none .put rfl hgood)
  · exact noRaise_map _ _
      (request_noRaise _ env "PUT" "/pause" none .put rfl hgood)
  · exact noRaise_map _ _
      (request_noRaise _ env "PUT" "/next" none .put rfl hgood)
  · exact noRaise_map _ _
      (request_noRaise _ env "PUT" "/previous" none .put rfl hgood)

/-- Witness for C4 amended: evaluated in an environment where every call is
refused at the transport level. -/
theorem no_exception_escape_except_invalid_json_witness :
    (∀ call, envRefused call ≠ .response .invalid) ∧
    noRaise (dev0.update envRefused).2 = true ∧
    noRaise
      (ItunesDevice.init "iTunes" "http://192.168.1.16" 8181 envRefused).2 =
      true := by
  have hg : ∀ call, envRefused call ≠ .response .invalid := by
    intro call
    simp [envRefused]
  have h := no_exception_escape_except_invalid_json dev0 client0 envRefused
    hg "iTunes" "http://192.168.1.16" 8181 50 true (1/2)
  exact ⟨hg, h.2.2.2.2.2.2.2.2.1, h.2.2.2.2.2.2.2.1⟩

/-- C5: `update_state` overwrites the entire cached state wholesale — each
cached field equals the corresponding response key or its default (`None`,
or 0 for `volume`) when absent — and after a connection-refused failure the
sentinel `{player_state: 'offline'}` is merged, so the cached title
(`media_title`) becomes `None` regardless of its previous value. -/
theorem update_state_wholesale_overwrite (d : ItunesDevice) (sh : StateHash)
    (env : HttpEnv)
    (hconn : env ⟨HttpVerb.get, d.client._base_url ++ "/now_playing", none⟩ =
      .raises .otherRequestException) :
    ((d.update_state sh).player_state = sh.player_state ∧
     (d.update_state sh).current_volume = some (sh.volume.getD 0) ∧
     (d.update_state sh).muted = sh.muted ∧
     (d.update_state sh).current_title = sh.name ∧
     (d.update_state sh).current_album = sh.album ∧
     (d.update_state sh).current_artist = sh.artist ∧
     (d.update_state sh).current_playlist = sh.playlist ∧
     (d.update_state sh).content_id = sh.id) ∧
    (d.update env).2 =
      .ok (d.update_state { player_state := some "offline" }) ∧
    (d.update_state { player_state := some "offline" }).media_title =
      none := by
  refine ⟨⟨rfl, rfl, rfl, rfl, rfl, rfl, rfl, rfl⟩, ?_, rfl⟩
  show Except.map d.update_state
    (d.client._request env "GET" "/now_playing" none).2 = _
  unfold Itunes._request
  rw [show dispatch "GET" = some HttpVerb.get from rfl]
  dsimp only
  rw [hconn]
  rfl

/-- Witness for C5: evaluated at the concrete playing device and the
refused-connection environment; the previously cached title was
`'Song A'` and afterwards it is `None`. -/
theorem update_state_wholesale_overwrite_witness :
    envRefused ⟨HttpVerb.get, dev0.client._base_url ++ "/now_playing",
      none⟩ = .raises .otherRequestException ∧
    dev0.media_title = some "Song A" ∧
    (dev0.update envRefused).2 =
      .ok (dev0.update_state { player_state := some "offline" }) ∧
    (dev0.update_state { player_state := some "offline" }).media_title =
      none := by
  have h := update_state_wholesale_overwrite dev0 {} envRefused rfl
  exact ⟨rfl, rfl, h.2.1, h.2.2⟩

/-- Counterexample for C6 as stated: at `v = 0.999` the source passes
`int(v * 100) = 99` to the transport, while `round(v * 100) = 100`; the two
disagree, so `set_volume_level` does not call the transport with
`round(v*100)` for every `v`. -/
theorem set_volume_level_round_counterexample :
    (dev0.set_volume_level envOkEmpty ((999:ℚ)/1000)).1 =
      some ⟨HttpVerb.put, dev0.client._base_url ++ "/volume",
        some { level := some 99 }⟩ ∧
    pyRound ((999:ℚ)/1000 * 100) = 100 ∧
    ¬ ((99:Int) = 100) := by
  refine ⟨?_, pyRound_ratio_999, by norm_num⟩
  have h : (dev0.set_volume_level envOkEmpty ((999:ℚ)/1000)).1 =
      some ⟨HttpVerb.put, dev0.client._base_url ++ "/volume",
        some { level := some (pyInt ((999:ℚ)/1000 * 100)) }⟩ := rfl
  rw [h, pyInt_ratio_999]

/-- C6 amended: `set_volume_level(v)` calls the transport's `set_volume`
with the truncated integer percentage `int(v*100)` (toward zero), not the
rounded one; in particular `set_volume_level(0.73)` still calls it with
`level = 73`. -/
theorem set_volume_level_truncation (d : ItunesDevice) (env : HttpEnv)
    (v : ℚ) :
    (d.set_volume_level env v).1 =
      some ⟨HttpVerb.put, d.client._base_url ++ "/volume",
        some { level := some (pyInt (v * 100)) }⟩ ∧
    pyInt ((73:ℚ)/100 * 100) = 73 :=
  ⟨rfl, pyInt_ratio_73⟩

theorem map_update_ok_volume_isSome (d d' : ItunesDevice)
    (r : Except PyExc StateHash)
    (h : Except.map d.update_state r = .ok d') :
    d'.current_volume.isSome = true ∧ d'.volume_level.isSome = true := by
  cases r with
  | error e => simp [Except.map] at h
  | ok sh =>
    simp [Except.map] at h
    subst h
    exact ⟨rfl, rfl⟩

/-- C10: after construction (whose eager update succeeds) and after every
adapter operation that returns, the cached `current_volume` is never
`None` — `update_state` always assigns an integer (default 0) — so the
`volume_level` property never divides `None` and is total. -/
theorem current_volume_never_none (nm host : String) (port : Int)
    (env : HttpEnv) (d d' : ItunesDevice) (v : ℚ) (b : Bool) :
    ((ItunesDevice.init nm host port env).2 = .ok d' →
      d'.current_volume.isSome = true ∧ d'.volume_level.isSome = true) ∧
    ((d.update env).2 = .ok d' →
      d'.current_volume.isSome = true ∧ d'.volume_level.isSome = true) ∧
    ((d.set_volume_level env v).2 = .ok d' →
      d'.current_volume.isSome = true ∧ d'.volume_level.isSome = true) ∧
    ((d.mute_volume env b).2 = .ok d' →
      d'.current_volume.isSome = true ∧ d'.volume_level.isSome = true) ∧
    ((d.media_play env).2 = .ok d' →
      d'.current_volume.isSome = true ∧ d'.volume_level.isSome = true) ∧
    ((d.media_pause env).2 = .ok d' →
      d'.current_volume.isSome = true ∧ d'.volume_level.isSome = true) ∧
    ((d.media_next_track env).2 = .ok d' →
      d'.current_volume.isSome = true ∧ d'.volume_level.isSome = true) ∧
    ((d.media_previous_track env).2 = .ok d' →
      d'.current_volume.isSome = true ∧ d'.volume_level.isSome = true) := by
  refine ⟨?_, ?_, ?_, ?_, ?_, ?_, ?_, ?_⟩ <;>
    exact fun h => map_update_ok_volume_isSome _ _ _ h

/-- Witness for C10: a successful empty-response update of the concrete
device yields a state whose cached volume is present and whose
`volume_level` is defined. -/
theorem current_volume_never_none_witness :
    (dev0.update envOkEmpty).2 = .ok (dev0.update_state {}) ∧
    (dev0.update_state {}).current_volume.isSome = true ∧
    (dev0.update_state {}).volume_level.isSome = true := by
  have h := (current_volume_never_none "iTunes" "http://192.168.1.16" 8181
    envOkEmpty dev0 (dev0.update_state {}) (1/2) true).2.1 rfl
  exact ⟨rfl, h.1, h.2⟩
